import Mathlib

/-!
Verification development for the camera display widget
(hal4000/qtWidgets/qtCameraWidget.py of storm-control).

The widget is embedded shallowly: Python 2 machine-independent integers
become Lean integers, Python 2 floor division on integers becomes
Int.fdiv, float arithmetic in the contrast rescale and the auto-scale
margin is modelled exactly over the rationals, numpy arrays become lists
of lists, Qt signal emissions become an explicit list of emitted
signals, and the widget object becomes an explicit state record that the
methods transform.  An operation that would raise in Python (the numpy
IndexError reachable from updateImageWithFrame) returns none.
-/

namespace CameraWidget

/-- Python 2 division of two integers: floor division. -/
def pydiv (a b : ℤ) : ℤ := Int.fdiv a b

/-- calcFinalSize, lines 85 to 104.  The method reads x_size, y_size,
x_view, y_view and magnification from the widget and writes x_final and
y_final; this is its pure core, returning the pair (x_final, y_final).
The source initialises x_final := x_view and y_final := y_view and then
overwrites one of them in an if / elif on x_size vs y_size (the two
guards are mutually exclusive), before multiplying both by the
magnification.  The Qt effects (setFixedSize on the square of the larger
final size, buffer reallocation, blank) are display side effects not
modelled here. -/
def calcFinalSize (x_size y_size x_view y_view magnification : ℤ) : ℤ × ℤ :=
  if x_size > y_size then
    (x_view * magnification, pydiv (x_view * y_size) x_size * magnification)
  else if x_size < y_size then
    (pydiv (y_view * x_size) y_size * magnification, y_view * magnification)
  else
    (x_view * magnification, y_view * magnification)

/-- Screen coordinate to sensor coordinate, lines 127 and 128:
event coordinate times the sensor size divided (floor) by the final
size. -/
def screenToSensor (s c_size final : ℤ) : ℤ := pydiv (s * c_size) final

/-- The inverse map through the same scale factor (the round-trip
direction of the spec): sensor coordinate times the final size divided
(floor) by the sensor size. -/
def sensorToScreen (c c_size final : ℤ) : ℤ := pydiv (c * final) c_size

/-- The clamp of lines 130 to 133: a click coordinate at or above the
sensor size is rewritten to size minus one.  There is no lower-bound
branch in the source. -/
def clampClick (c c_size : ℤ) : ℤ := if c ≥ c_size then c_size - 1 else c

/-- A camera frame: width image_x, height image_y, and the flat
row-major sample data returned by getData(). -/
structure Frame where
  image_x : ℕ
  image_y : ℕ
  data : List ℤ
deriving DecidableEq, Repr

/-- The parameters object read by __init__ and newParameters. -/
structure Parameters where
  flip_horizontal : Bool
  flip_vertical : Bool
  rotate90 : Bool
  x_pixels : ℤ
  y_pixels : ℤ
  x_bin : ℤ
  y_bin : ℤ
deriving DecidableEq, Repr

/-- The mutable fields of QCameraWidget.  self.image is modelled by the
quantized 8-bit index grid temp that the source attaches to the QImage
as image.ndarray (the scaled QImage rendering of it is a Qt display
effect).  colortable, display_range and rotate90 are attributes that
__init__ does not set (they first appear in newParameters /
newColorTable); they are given placeholder values in initState below,
and no theorem reads them on a pre-newParameters state. -/
structure CamState where
  colortable : Option (List (ℤ × ℤ × ℤ))
  display_range : ℤ × ℤ
  flip_horizontal : Bool
  flip_vertical : Bool
  rotate90 : Bool
  image : Option (List (List ℕ))
  image_min : ℤ
  image_max : ℤ
  magnification : ℤ
  show_grid : Bool
  show_info : Bool
  show_target : Bool
  x_click : ℤ
  x_final : ℤ
  x_size : ℤ
  x_view : ℤ
  y_click : ℤ
  y_final : ℤ
  y_size : ℤ
  y_view : ℤ
deriving DecidableEq, Repr

/-- The signals the widget can emit: intensityInfo(int, int, int) and
mousePress(int, int). -/
inductive Signal where
  | intensityInfo (x y value : ℤ)
  | mousePress (x y : ℤ)
deriving DecidableEq, Repr

/-- __init__, lines 28 to 63: the initial widget state.  Only the two
flip flags are read from the parameters object. -/
def initState (flip_horizontal flip_vertical : Bool) : CamState :=
  { colortable := none
    display_range := (0, 0)
    flip_horizontal := flip_horizontal
    flip_vertical := flip_vertical
    rotate90 := false
    image := none
    image_min := 0
    image_max := 1
    magnification := 1
    show_grid := false
    show_info := true
    show_target := false
    x_click := 0
    x_final := 10
    x_size := 0
    x_view := 512
    y_click := 0
    y_final := 10
    y_size := 0
    y_view := 512 }

/-- The state update of calcFinalSize: x_final and y_final receive the
computed pair. -/
def calcFinalSizeState (s : CamState) : CamState :=
  let fs := calcFinalSize s.x_size s.y_size s.x_view s.y_view s.magnification
  { s with x_final := fs.1, y_final := fs.2 }

/-- getAutoScale, lines 113 to 115.  The margin int(0.1 * float(d))
truncates toward zero; with the float arithmetic modelled exactly over
the rationals this is truncating division of d by ten.  The method only
reads image_min and image_max and returns the suggested pair; it writes
nothing. -/
def getAutoScale (s : CamState) : ℤ × ℤ :=
  let margin := Int.tdiv (s.image_max - s.image_min) 10
  (s.image_min - margin, s.image_max + margin)

/-- mousePressEvent, lines 126 to 135: scale the event coordinates into
sensor space, clamp from above, store the click point and emit
mousePress with the clamped sensor coordinates. -/
def mousePressEvent (s : CamState) (ex ey : ℤ) : CamState × List Signal :=
  let xc := clampClick (screenToSensor ex s.x_size s.x_final) s.x_size
  let yc := clampClick (screenToSensor ey s.y_size s.y_final) s.y_size
  ({ s with x_click := xc, y_click := yc }, [Signal.mousePress xc yc])

/-- newParameters, lines 153 to 162: store colortable, display range,
orientation flags and the binned sensor size, then recompute the final
size. -/
def newParameters (s : CamState) (p : Parameters)
    (colortable : Option (List (ℤ × ℤ × ℤ))) (display_range : ℤ × ℤ) :
    CamState :=
  calcFinalSizeState
    { s with
      colortable := colortable
      display_range := display_range
      flip_horizontal := p.flip_horizontal
      flip_vertical := p.flip_vertical
      rotate90 := p.rotate90
      x_size := pydiv p.x_pixels p.x_bin
      y_size := pydiv p.y_pixels p.y_bin }

/-- newRange, lines 168 to 169: store the display range. -/
def newRange (s : CamState) (display_range : ℤ × ℤ) : CamState :=
  { s with display_range := display_range }

/-- setMagnification, lines 231 to 233: store the new magnification and
recompute the final size. -/
def setMagnification (s : CamState) (new_magnification : ℤ) : CamState :=
  calcFinalSizeState { s with magnification := new_magnification }

/-- numpy reshape((h, w)) of the flat data: split into rows of length
w.  numpy additionally requires the length to be h * w; the frames the
theorems use satisfy that. -/
def reshape (data : List ℤ) (w : ℕ) : List (List ℤ) := List.toChunks w data

/-- numpy.min of a nonempty array (numpy raises on an empty one; 0 here
is a placeholder no theorem relies on). -/
def listMin : List ℤ → ℤ
  | [] => 0
  | x :: xs => xs.foldl min x

/-- numpy.max, as listMin. -/
def listMax : List ℤ → ℤ
  | [] => 0
  | x :: xs => xs.foldl max x

/-- numpy.rot90: one counter-clockwise quarter turn, turning an
h-by-w grid into a w-by-h grid.  rot90 m = reverse (transpose m), as on
[[1,2],[3,4]] -> [[2,4],[1,3]]. -/
def rot90 (g : List (List ℤ)) : List (List ℤ) := g.transpose.reverse

/-- Array indexing image_data[y, x]: row y, column x; none when out of
bounds (an IndexError in numpy, since the callers only index with
nonnegative coordinates). -/
def getPixel (g : List (List ℤ)) (y x : ℕ) : Option ℤ :=
  (g.get? y).bind fun row => row.get? x

/-- The contrast rescale of lines 291 to 295 for one sample: compute
255 * (v - low) / (high - low) (float arithmetic modelled exactly over
the rationals), replace values above 255 by 255, then values below 0 by
0, in that order as in the source, then cast to uint8, which on the
clamped nonnegative value is truncation, i.e. the floor. -/
def rescale (v low high : ℤ) : ℕ :=
  let t : ℚ := 255 * ((v : ℚ) - (low : ℚ)) / ((high : ℚ) - (low : ℚ))
  let t1 : ℚ := if t > 255 then 255 else t
  let t2 : ℚ := if t1 < 0 then 0 else t1
  (⌊t2⌋).toNat

/-- updateImageWithFrame, lines 273 to 312.  A falsy frame (None) skips
the whole body.  Otherwise: reshape, record min and max of the raw
data, apply flip_horizontal (reverse each row), flip_vertical (reverse
the row order), rot90, quantize each sample through the display range,
store the quantized grid as the new image, and when show_info is set
and the stored click point passes the bounds guard against the frame
width and height, look up image_data[y_click, x_click] in the oriented
grid and emit intensityInfo.  The lookup result none models the numpy
IndexError the source would raise there; the setColorTable / QImage
scaling / update() calls are Qt display effects with no bearing on the
state fields modelled here. -/
def updateImageWithFrame (s : CamState) (frame : Option Frame) :
    Option (CamState × List Signal) :=
  match frame with
  | none => some (s, [])
  | some f =>
    let w := f.image_x
    let h := f.image_y
    let d0 := reshape f.data w
    let imin := listMin f.data
    let imax := listMax f.data
    let d1 := if s.flip_horizontal then d0.map List.reverse else d0
    let d2 := if s.flip_vertical then d1.reverse else d1
    let d3 := if s.rotate90 then rot90 d2 else d2
    let temp := d3.map (List.map fun v => rescale v s.display_range.1 s.display_range.2)
    let s1 := { s with image_min := imin, image_max := imax, image := some temp }
    if s.show_info then
      if 0 ≤ s.x_click ∧ s.x_click < (w : ℤ) ∧ 0 ≤ s.y_click ∧ s.y_click < (h : ℤ) then
        match getPixel d3 s.y_click.toNat s.x_click.toNat with
        | some value => some (s1, [Signal.intensityInfo s.x_click s.y_click value])
        | none => none
      else some (s1, [])
    else some (s1, [])

/-- A widget configured as in the spec example: sensor 200 by 200, no
binning, no orientation change, magnification 1, view minimum 512, so
that the final size is 512 by 512. -/
def exampleState : CamState :=
  newParameters (initState false false)
    { flip_horizontal := false
      flip_vertical := false
      rotate90 := false
      x_pixels := 200
      y_pixels := 200
      x_bin := 1
      y_bin := 1 }
    none (0, 256)

/-- A widget configured with rotate90 set and a non-square sensor of 4
by 2 pixels, with a stored click point (3, 0). -/
def rotateState : CamState :=
  { newParameters (initState false false)
      { flip_horizontal := false
        flip_vertical := false
        rotate90 := true
        x_pixels := 4
        y_pixels := 2
        x_bin := 1
        y_bin := 1 }
      none (0, 256) with
    x_click := 3
    y_click := 0 }

/-- A 4 by 2 frame with distinct samples. -/
def rotateFrame : Frame := { image_x := 4, image_y := 2, data := [0, 1, 2, 3, 4, 5, 6, 7] }

/-- A widget configured for a 2 by 2 sensor. -/
def smallState : CamState :=
  newParameters (initState false false)
    { flip_horizontal := false
      flip_vertical := false
      rotate90 := false
      x_pixels := 2
      y_pixels := 2
      x_bin := 1
      y_bin := 1 }
    none (0, 256)

/-- A constant 2 by 2 frame, every sample 7. -/
def constFrame : Frame := { image_x := 2, image_y := 2, data := [7, 7, 7, 7] }

/-! Helper lemmas about Python floor division and the click clamp. -/

lemma pydiv_eq_ediv (a : ℤ) {b : ℤ} (hb : 0 ≤ b) : pydiv a b = a / b :=
  Int.fdiv_eq_ediv a hb

lemma pydiv_nonneg {a b : ℤ} (ha : 0 ≤ a) (hb : 0 ≤ b) : 0 ≤ pydiv a b := by
  rw [pydiv_eq_ediv a hb]
  exact Int.ediv_nonneg ha hb

lemma pydiv_mul_le (a : ℤ) {b : ℤ} (hb : 0 < b) : pydiv a b * b ≤ a := by
  rw [pydiv_eq_ediv a hb.le]
  exact Int.ediv_mul_le a hb.ne'

lemma lt_pydiv_add_one_mul (a : ℤ) {b : ℤ} (hb : 0 < b) : a < (pydiv a b + 1) * b := by
  rw [pydiv_eq_ediv a hb.le]
  exact Int.lt_ediv_add_one_mul_self a hb

lemma clampClick_eq_min (c n : ℤ) : clampClick c n = min c (n - 1) := by
  unfold clampClick
  split_ifs with h
  · exact (min_eq_right (by linarith)).symm
  · exact (min_eq_left (by linarith)).symm

/-- C6: calling updateImageWithFrame with an absent frame is a no-op:
the whole state, the previous image included, is returned unchanged and
the emitted signal list is empty. -/
theorem C6_nullFrame_noop (s : CamState) : updateImageWithFrame s none = some (s, []) := rfl

/-- C3 counterexample: on the configured example widget, setting
magnification 0 stores magnification 0, and setting the degenerate
range (7, 7) and the inverted range (9, 3) stores them in
display_range: nothing is rejected at the configuration boundary,
contradicting the claim that these are surfaced as fatal contract
violations. -/
theorem C3_counterexample :
    (setMagnification exampleState 0).magnification = 0 ∧
    (newRange exampleState (7, 7)).display_range = (7, 7) ∧
    (newRange exampleState (9, 3)).display_range = (9, 3) :=
  ⟨rfl, rfl, rfl⟩

/-- C3 amended: setMagnification and newRange perform no validation at
all: every magnification, including values below one, and every display
range, including ranges with low at or above high, are stored directly
into the widget state. -/
theorem C3_amended_noValidation (s : CamState) (m : ℤ) (r : ℤ × ℤ) :
    (setMagnification s m).magnification = m ∧
    (newRange s r).display_range = r :=
  ⟨rfl, rfl⟩

/-- C9: in the initial state the sensor size fields are 0 and the final
size fields are 10, so every pointer press maps to raw coordinate 0,
the clamp branch rewrites it to 0 - 1 = -1, and mousePress is emitted
with (-1, -1), wherever the press occurred. -/
theorem C9_initialState_click (fh fv : Bool) (ex ey : ℤ) :
    screenToSensor ex (initState fh fv).x_size (initState fh fv).x_final = 0 ∧
    clampClick 0 (initState fh fv).x_size = -1 ∧
    mousePressEvent (initState fh fv) ex ey =
      ({ initState fh fv with x_click := -1, y_click := -1 },
       [Signal.mousePress (-1) (-1)]) := by
  refine ⟨?_, rfl, ?_⟩
  · simp [screenToSensor, pydiv, initState, Int.zero_fdiv]
  · simp [mousePressEvent, screenToSensor, clampClick, pydiv, initState, Int.zero_fdiv]

/-- C2: for a nonnegative press position and positive configured sensor
and final sizes, the emitted mousePress signal carries the truncated
quotients sx * sensorWidth / finalWidth and sy * sensorHeight /
finalHeight, clamped from above to size - 1, the stored click point
lies in [0, sensorWidth - 1] times [0, sensorHeight - 1] on both ends,
and on the example widget (sensor 200 by 200, magnification 1, view
minimum 512) a press at (256, 256) is emitted as sensor (100, 100). -/
theorem C2_mousePressEvent_maps_and_clamps (s : CamState) (ex ey : ℤ)
    (hex : 0 ≤ ex) (hey : 0 ≤ ey)
    (hxs : 0 < s.x_size) (hys : 0 < s.y_size)
    (hxf : 0 < s.x_final) (hyf : 0 < s.y_final) :
    (mousePressEvent s ex ey).2 =
      [Signal.mousePress (min (ex * s.x_size / s.x_final) (s.x_size - 1))
        (min (ey * s.y_size / s.y_final) (s.y_size - 1))] ∧
    0 ≤ (mousePressEvent s ex ey).1.x_click ∧
    (mousePressEvent s ex ey).1.x_click ≤ s.x_size - 1 ∧
    0 ≤ (mousePressEvent s ex ey).1.y_click ∧
    (mousePressEvent s ex ey).1.y_click ≤ s.y_size - 1 ∧
    (mousePressEvent exampleState 256 256).2 = [Signal.mousePress 100 100] := by
  have hx : clampClick (screenToSensor ex s.x_size s.x_final) s.x_size =
      min (ex * s.x_size / s.x_final) (s.x_size - 1) := by
    rw [clampClick_eq_min, screenToSensor, pydiv_eq_ediv _ hxf.le]
  have hy : clampClick (screenToSensor ey s.y_size s.y_final) s.y_size =
      min (ey * s.y_size / s.y_final) (s.y_size - 1) := by
    rw [clampClick_eq_min, screenToSensor, pydiv_eq_ediv _ hyf.le]
  have hx0 : 0 ≤ ex * s.x_size / s.x_final :=
    Int.ediv_nonneg (mul_nonneg hex hxs.le) hxf.le
  have hy0 : 0 ≤ ey * s.y_size / s.y_final :=
    Int.ediv_nonneg (mul_nonneg hey hys.le) hyf.le
  refine ⟨?_, ?_, ?_, ?_, ?_, by decide⟩
  · simp [mousePressEvent, hx, hy]
  · simp only [mousePressEvent]
    rw [hx]
    exact le_min hx0 (by linarith)
  · simp only [mousePressEvent]
    rw [hx]
    exact min_le_right _ _
  · simp only [mousePressEvent]
    rw [hy]
    exact le_min hy0 (by linarith)
  · simp only [mousePressEvent]
    rw [hy]
    exact min_le_right _ _

/-- C2 witness: the theorem instantiated on the example widget at press
position (256, 256). -/
theorem C2_witness : (mousePressEvent exampleState 256 256).2 = [Signal.mousePress 100 100] :=
  (C2_mousePressEvent_maps_and_clamps exampleState 256 256 (by decide) (by decide)
    (by decide) (by decide) (by decide) (by decide)).2.2.2.2.2

/-- C1 counterexample: with sensor 3 by 2, view minimum 512 by 512 and
magnification 10, calcFinalSize returns (5120, 3410).  The smaller
sensor dimension (the height, 2) does not map to the scaled view
minimum 512 * 10 = 5120, and the aspect ratio is off by more than one
pixel: a height within one pixel of 5120 * 2 / 3 would satisfy
5120 * 2 <= (height + 1) * 3, which 3410 violates. -/
theorem C1_counterexample :
    calcFinalSize 3 2 512 512 10 = (5120, 3410) ∧
    (calcFinalSize 3 2 512 512 10).2 ≠ 512 * 10 ∧
    ¬ (calcFinalSize 3 2 512 512 10).1 * 2 ≤ ((calcFinalSize 3 2 512 512 10).2 + 1) * 3 := by
  refine ⟨by decide, by decide, by decide⟩

/-- C1 amended: calcFinalSize keeps the final size of the larger sensor
dimension at that axis's view minimum times the magnification, scales
the smaller dimension proportionally with truncating division before
multiplying by the magnification (so the aspect ratio is preserved to
within strictly less than one pixel times the magnification:
0 <= xf * ys - yf * xs < xs * m in the ys < xs case and symmetrically),
and leaves both dimensions at their view minima times the magnification
when the sensor is square. -/
theorem C1_amended_calcFinalSize (xs ys xv yv m : ℤ)
    (hxs : 0 < xs) (hys : 0 < ys) (hxv : 0 ≤ xv) (hyv : 0 ≤ yv) (hm : 1 ≤ m) :
    (xs = ys → calcFinalSize xs ys xv yv m = (xv * m, yv * m)) ∧
    (ys < xs →
      (calcFinalSize xs ys xv yv m).1 = xv * m ∧
      (calcFinalSize xs ys xv yv m).2 * xs ≤ xv * m * ys ∧
      xv * m * ys < (calcFinalSize xs ys xv yv m).2 * xs + xs * m) ∧
    (xs < ys →
      (calcFinalSize xs ys xv yv m).2 = yv * m ∧
      (calcFinalSize xs ys xv yv m).1 * ys ≤ yv * m * xs ∧
      yv * m * xs < (calcFinalSize xs ys xv yv m).1 * ys + ys * m) := by
  refine ⟨?_, ?_, ?_⟩
  · intro heq
    simp [calcFinalSize, heq]
  · intro hlt
    have hdl : pydiv (xv * ys) xs * xs ≤ xv * ys := pydiv_mul_le _ hxs
    have hdu : xv * ys < (pydiv (xv * ys) xs + 1) * xs := lt_pydiv_add_one_mul _ hxs
    simp only [calcFinalSize, if_pos hlt]
    refine ⟨trivial, ?_, ?_⟩
    · calc pydiv (xv * ys) xs * m * xs = pydiv (xv * ys) xs * xs * m := by ring
        _ ≤ xv * ys * m := mul_le_mul_of_nonneg_right hdl (by linarith)
        _ = xv * m * ys := by ring
    · calc xv * m * ys = xv * ys * m := by ring
        _ < (pydiv (xv * ys) xs + 1) * xs * m := mul_lt_mul_of_pos_right hdu (by linarith)
        _ = pydiv (xv * ys) xs * m * xs + xs * m := by ring
  · intro hlt
    have hdl : pydiv (yv * xs) ys * ys ≤ yv * xs := pydiv_mul_le _ hys
    have hdu : yv * xs < (pydiv (yv * xs) ys + 1) * ys := lt_pydiv_add_one_mul _ hys
    simp only [calcFinalSize, if_neg (lt_asymm hlt), if_pos hlt]
    refine ⟨trivial, ?_, ?_⟩
    · calc pydiv (yv * xs) ys * m * ys = pydiv (yv * xs) ys * ys * m := by ring
        _ ≤ yv * xs * m := mul_le_mul_of_nonneg_right hdl (by linarith)
        _ = yv * m * xs := by ring
    · calc yv * m * xs = yv * xs * m := by ring
        _ < (pydiv (yv * xs) ys + 1) * ys * m := mul_lt_mul_of_pos_right hdu (by linarith)
        _ = pydiv (yv * xs) ys * m * ys + ys * m := by ring

/-- C1 witness: the amended theorem instantiated at sensor 3 by 2, view
minima 512, magnification 10, reading off the width branch. -/
theorem C1_witness : (calcFinalSize 3 2 512 512 10).1 = 512 * 10 :=
  ((C1_amended_calcFinalSize 3 2 512 512 10 (by decide) (by decide) (by decide)
    (by decide) (by decide)).2.1 (by decide)).1

/-- C5 counterexample: with sensor size 200 and final size 512, the
screen coordinate 511 maps to sensor coordinate 199, which maps back to
509, two pixels away from the original, so the round trip does not land
within one pixel. -/
theorem C5_counterexample :
    screenToSensor 511 200 512 = 199 ∧
    sensorToScreen (screenToSensor 511 200 512) 200 512 = 509 ∧
    ¬ 511 - sensorToScreen (screenToSensor 511 200 512) 200 512 ≤ 1 := by
  refine ⟨by decide, by decide, by decide⟩

/-- C5 amended: for a nonnegative screen coordinate and positive sensor
and final sizes, the round trip through the same scale factor lands at
or below the original coordinate and above it minus one sensor pixel's
worth of screen distance (sx * c_size < back * c_size + c_size + final,
so the loss is strictly below final / c_size + 1 pixels); in particular
it lands within one pixel whenever the final size does not exceed the
sensor size. -/
theorem C5_amended_roundTrip (sx c_size final : ℤ)
    (hsx : 0 ≤ sx) (hc : 0 < c_size) (hf : 0 < final) :
    sensorToScreen (screenToSensor sx c_size final) c_size final ≤ sx ∧
    sx * c_size <
      sensorToScreen (screenToSensor sx c_size final) c_size final * c_size + c_size + final ∧
    (final ≤ c_size → sx - sensorToScreen (screenToSensor sx c_size final) c_size final ≤ 1) := by
  have h1 : pydiv (sx * c_size) final * final ≤ sx * c_size := pydiv_mul_le _ hf
  have h2 : sx * c_size < (pydiv (sx * c_size) final + 1) * final := lt_pydiv_add_one_mul _ hf
  have h3 : sensorToScreen (screenToSensor sx c_size final) c_size final * c_size ≤
      pydiv (sx * c_size) final * final := by
    unfold sensorToScreen screenToSensor
    exact pydiv_mul_le _ hc
  have h4 : pydiv (sx * c_size) final * final <
      (sensorToScreen (screenToSensor sx c_size final) c_size final + 1) * c_size := by
    unfold sensorToScreen screenToSensor
    exact lt_pydiv_add_one_mul _ hc
  refine ⟨?_, ?_, ?_⟩
  · exact le_of_mul_le_mul_right (le_trans h3 h1) hc
  · linarith
  · intro hfc
    have hlt : sx * c_size <
        (sensorToScreen (screenToSensor sx c_size final) c_size final + 2) * c_size := by
      linarith
    have := lt_of_mul_lt_mul_right hlt hc.le
    linarith

/-- C5 witness: the amended theorem instantiated at screen coordinate
511, sensor size 200, final size 512. -/
theorem C5_witness : sensorToScreen (screenToSensor 511 200 512) 200 512 ≤ 511 :=
  (C5_amended_roundTrip 511 200 512 (by decide) (by decide) (by decide)).1

/-- C4: for a display range with low below high, the per-sample rescale
equals the rational 255 * (v - low) / (high - low) clamped into
[0, 255] and then truncated to an integer index, the index never
exceeds 255, and on the spec examples: value 150 in range [100, 200]
quantizes to 127 (truncation of 127.5 toward zero, consistently
downward), and value 250 in range [0, 200] clamps to 255. -/
theorem C4_rescale (v low high : ℤ) (h : low < high) :
    rescale v low high =
      (⌊max 0 (min 255 (255 * ((v : ℚ) - (low : ℚ)) / ((high : ℚ) - (low : ℚ))))⌋).toNat ∧
    rescale v low high ≤ 255 ∧
    rescale 150 100 200 = 127 ∧
    rescale 250 0 200 = 255 := by
  have hmain : rescale v low high =
      (⌊max 0 (min 255 (255 * ((v : ℚ) - (low : ℚ)) / ((high : ℚ) - (low : ℚ))))⌋).toNat := by
    simp only [rescale]
    split_ifs with h1 h2 h2
    · linarith
    · rw [min_eq_left h1.le, max_eq_right (by norm_num : (0 : ℚ) ≤ 255)]
    · rw [min_eq_right (le_of_not_lt h1), max_eq_left h2.le]
    · rw [min_eq_right (le_of_not_lt h1), max_eq_right (le_of_not_lt h2)]
  have hbound : rescale v low high ≤ 255 := by
    rw [hmain]
    rw [Int.toNat_le]
    calc ⌊max 0 (min 255 (255 * ((v : ℚ) - (low : ℚ)) / ((high : ℚ) - (low : ℚ))))⌋ ≤
        ⌊(255 : ℚ)⌋ :=
          Int.floor_le_floor (max_le (by norm_num) (min_le_left _ _))
      _ = ((255 : ℕ) : ℤ) := by norm_num
  refine ⟨hmain, hbound, ?_, ?_⟩
  · norm_num [rescale]
    decide
  · norm_num [rescale]
    decide

/-- C4 witness: the theorem instantiated on the first spec example,
value 150 in the range [100, 200]. -/
theorem C4_witness : rescale 150 100 200 = 127 :=
  (C4_rescale 150 100 200 (by decide)).2.2.1

/-- C7: when the recorded image minimum is at most the maximum,
getAutoScale returns exactly [image_min - margin, image_max + margin]
with margin the floor of one tenth of image_max - image_min (the
function only reads the two recorded extremes and returns the
suggestion without touching the display range); on the spec example
with extremes 50 and 150 it suggests [40, 160]. -/
theorem C7_getAutoScale (s : CamState) (h : s.image_min ≤ s.image_max) :
    getAutoScale s =
      (s.image_min - (s.image_max - s.image_min) / 10,
       s.image_max + (s.image_max - s.image_min) / 10) ∧
    getAutoScale { s with image_min := 50, image_max := 150 } = (40, 160) := by
  constructor
  · unfold getAutoScale
    rw [Int.tdiv_eq_ediv (by linarith) (by norm_num)]
  · rfl

/-- C7 witness: the theorem instantiated on the initial widget state,
whose recorded extremes 0 and 1 satisfy the hypothesis, reading off the
spec example. -/
theorem C7_witness :
    getAutoScale { initState false false with image_min := 50, image_max := 150 } = (40, 160) :=
  (C7_getAutoScale (initState false false) (by decide)).2

/-- C10: whenever the recorded extremes coincide (value v), getAutoScale
returns the degenerate suggestion (v, v), whose low is not below its
high, violating the low < high requirement on display ranges; such a
state is reachable: processing the constant 2 by 2 frame of sevens on
the configured small widget records image_min = image_max = 7. -/
theorem C10_degenerate_autoscale (s : CamState) (v : ℤ)
    (h : s.image_min = v ∧ s.image_max = v) :
    getAutoScale s = (v, v) ∧
    ¬ (getAutoScale s).1 < (getAutoScale s).2 ∧
    Option.map (fun p => (p.1.image_min, p.1.image_max))
      (updateImageWithFrame smallState (some constFrame)) = some (7, 7) := by
  obtain ⟨h1, h2⟩ := h
  have heq : getAutoScale s = (v, v) := by
    simp [getAutoScale, h1, h2, Int.zero_tdiv]
  refine ⟨heq, ?_, by decide⟩
  rw [heq]
  exact lt_irrefl v

/-- C10 witness: the theorem instantiated on a state whose recorded
extremes are both 7. -/
theorem C10_witness :
    getAutoScale { initState false false with image_min := 7, image_max := 7 } = (7, 7) :=
  (C10_degenerate_autoscale { initState false false with image_min := 7, image_max := 7 } 7
    ⟨rfl, rfl⟩).1

/-- C8: on the rotate90 widget with the non-square 4 by 2 frame, the
stored click point (3, 0) passes the source's bounds guard against the
frame width and height, yet updateImageWithFrame returns none: the
lookup image_data[0, 3] falls outside the rot90-transposed grid, whose
rows now have length 2, so the source raises IndexError instead of
reporting an in-bounds intensity. -/
theorem C8_rotate90_lookup_out_of_bounds :
    ((0 : ℤ) ≤ rotateState.x_click ∧ rotateState.x_click < (rotateFrame.image_x : ℤ) ∧
     (0 : ℤ) ≤ rotateState.y_click ∧ rotateState.y_click < (rotateFrame.image_y : ℤ)) ∧
    rotateState.rotate90 = true ∧
    rotateState.show_info = true ∧
    updateImageWithFrame rotateState (some rotateFrame) = none := by
  refine ⟨by decide, rfl, rfl, by decide⟩

end CameraWidget
